import Mathlib

/-!
Verification of the Polish amount-in-words converter of `src/app/app.py`
(`_number_to_words_pl` and its helpers, lines 1679–1788 and 2111–2131).

Modelling conventions:
* An exact decimal input `value` is represented by an integer numerator `n`
  and a decimal exponent `k`, standing for `n / 10 ^ k`.
* `Decimal.quantize(Decimal("0.01"), rounding=ROUND_HALF_UP)` yields a value
  with exactly two fractional digits; we represent that result by its integer
  number of cents.  `ROUND_HALF_UP` rounds to nearest with ties away from zero.
* `int(value)` on a two-fractional-digit decimal truncates toward zero, i.e.
  `Int.tdiv cents 100` (T-division).  `(value * 100) % 100` uses Python's
  `Decimal.__mod__`, whose remainder carries the sign of the dividend, i.e.
  `Int.tmod cents 100` (T-remainder).  Python's `%` on `int` operands (used in
  `_declension` and `_group_to_words`) is floored, which for the positive
  moduli 10 and 100 agrees with `Int.emod` / `Nat.mod`.
* Python `f"{g:02d}"` zero-pads to width 2 (the sign counts toward the width).
* `str.strip()` and `" ".join(...)` are modelled by `pyStrip` and
  `pyJoin " "` below (the strings at hand contain no whitespace other than
  ordinary spaces).
-/

namespace Navi

/-- Python `sep.join(parts)`: the parts concatenated with `sep` between
consecutive parts. -/
def pyJoin (sep : String) : List String → String
  | [] => ""
  | [part] => part
  | part :: rest => part ++ sep ++ pyJoin sep rest

/-- Python `str.strip()`: the string with leading and trailing whitespace
removed. -/
def pyStrip (s : String) : String :=
  ⟨((s.data.dropWhile Char.isWhitespace).reverse.dropWhile Char.isWhitespace).reverse⟩

/-- Word tables from `app.py` lines 1679–1725 (written there with `\uXXXX`
escapes; these are the same strings). -/
def _UNITS : List (List String) := [
  ["zero", "jeden", "dwa", "trzy", "cztery", "pięć", "sześć", "siedem", "osiem", "dziewięć"],
  ["", "jeden", "dwa", "trzy", "cztery", "pięć", "sześć", "siedem", "osiem", "dziewięć"]]

def _TEENS : List String :=
  ["dziesięć", "jedenaście", "dwanaście", "trzynaście", "czternaście",
   "piętnaście", "szesnaście", "siedemnaście", "osiemnaście", "dziewiętnaście"]

def _TENS : List String :=
  ["", "", "dwadzieścia", "trzydzieści", "czterdzieści", "pięćdziesiąt",
   "sześćdziesiąt", "siedemdziesiąt", "osiemdziesiąt", "dziewięćdziesiąt"]

def _HUNDREDS : List String :=
  ["", "sto", "dwieście", "trzysta", "czterysta", "pięćset", "sześćset",
   "siedemset", "osiemset", "dziewięćset"]

def _GROUPS : List (String × String × String) := [
  ("złoty", "złote", "złotych"),
  ("tysiąc", "tysiące", "tysięcy"),
  ("milion", "miliony", "milionów"),
  ("miliard", "miliardy", "miliardów")]

def _GROSZ_FORMS : String × String × String := ("grosz", "grosze", "groszy")

/-- `_declension` from `app.py` lines 1728–1733 (and, identically,
lines 2126–2131).  `number` is a Python `int`, whose `%` is floored;
for the positive moduli 10 and 100 this is `Int.emod`, Lean's `%`. -/
def _declension (number : Int) (forms : String × String × String) : String :=
  if number = 1 then forms.1
  else if 2 ≤ number % 10 ∧ number % 10 ≤ 4 ∧ ¬ (12 ≤ number % 100 ∧ number % 100 ≤ 14)
    then forms.2.1
  else forms.2.2

/-- `_group_to_words` from `app.py` lines 1736–1759.  Every call site passes a
group in `[0, 999]`, a natural number. -/
def _group_to_words (group : Nat) (hide_one : Bool) : String :=
  if group = 0 then ""
  else
    let hundreds := group / 100
    let tens_units := group % 100
    let tens := tens_units / 10
    let units := tens_units % 10
    let words : List String :=
      (if hundreds ≠ 0 then [_HUNDREDS.getD hundreds ""] else []) ++
      (if tens_units ≠ 0 then
        (if tens_units < 10 then
          (if tens_units = 1 ∧ hide_one = true ∧ hundreds = 0 then []
           else [(_UNITS.getD 1 []).getD units ""])
         else if tens_units < 20 then [_TEENS.getD (tens_units - 10) ""]
         else [_TENS.getD tens ""] ++
              (if units ≠ 0 then [(_UNITS.getD 1 []).getD units ""] else []))
       else [])
    pyStrip (pyJoin " " words)

/-- Round `m / d` to the nearest integer, ties upward:
`floor (m / d + 1 / 2) = (2 * m + d) / (2 * d)` in natural division. -/
def roundHalfUpNat (m d : Nat) : Nat := (2 * m + d) / (2 * d)

/-- `value.quantize(Decimal("0.01"), rounding=ROUND_HALF_UP)` on the exact
decimal `n / 10 ^ k`, returned as an integer number of cents.
`ROUND_HALF_UP` rounds ties away from zero. -/
def quantizeHalfUp (n : Int) (k : Nat) : Int :=
  if k ≤ 2 then n * ((10 ^ (2 - k) : Nat) : Int)
  else if 0 ≤ n then (roundHalfUpNat n.toNat (10 ^ (k - 2)) : Int)
  else -(roundHalfUpNat n.natAbs (10 ^ (k - 2)) : Int)

/-- Python `f"{g:02d}"`: decimal digits zero-padded to width 2; a sign
character counts toward the width, and wider numbers print unpadded. -/
def format02 (g : Int) : String :=
  if g < 0 then "-" ++ toString g.natAbs
  else if g.natAbs < 10 then "0" ++ toString g.natAbs
  else toString g.natAbs

/-- The base-1000 decomposition loop of `_number_to_words_pl`
(`while tmp > 0: groups.append(tmp % 1000); tmp //= 1000`), least-significant
group first, written with an explicit structural fuel so that it reduces in
the kernel.  Each iteration with `n > 0` strictly shrinks `n`
(`n / 1000 < n`), so the loop performs at most `n` iterations and a fuel of
`n` never runs out: `_groups_go n n` is exactly the loop's output. -/
def _groups_go (fuel n : Nat) : List Nat :=
  match fuel with
  | 0 => []
  | fuel + 1 => if n = 0 then [] else n % 1000 :: _groups_go fuel (n / 1000)

def _groups_of (n : Nat) : List Nat := _groups_go n n

/-- The magnitude-forms lookup of `_number_to_words_pl`, line 1781:
`forms = _GROUPS[idx] if idx < len(_GROUPS) else _GROUPS[-1]`. -/
def _forms_for (idx : Nat) : String × String × String :=
  if idx < _GROUPS.length then _GROUPS.getD idx ("", "", "")
  else _GROUPS.getLastD ("", "", "")

/-- The `for idx, group in enumerate(groups)` loop of `_number_to_words_pl`:
zero groups are skipped, each non-zero group is rendered with
`hide_one = idx > 0`, suffixed with the declined magnitude noun
(`_forms_for idx`), and the parts are accumulated with
`parts.insert(0, part)`. -/
def _partsAux : Nat → List Nat → List String → List String
  | _, [], parts => parts
  | idx, g :: rest, parts =>
    if g = 0 then _partsAux (idx + 1) rest parts
    else
      let hide_one := decide (idx > 0)
      let group_words := _group_to_words g hide_one
      let part := pyStrip (group_words ++ " " ++ _declension (g : Int) (_forms_for idx))
      _partsAux (idx + 1) rest (part :: parts)

/-- The quantized amount of `_number_to_words_pl`, in cents. -/
def _cents (n : Int) (k : Nat) : Int := quantizeHalfUp n k

/-- The local `zloty = int(value)` of `_number_to_words_pl`:
truncation toward zero. -/
def _zloty (n : Int) (k : Nat) : Int := Int.tdiv (_cents n k) 100

/-- The local `grosze = int((value * 100) % 100)` of `_number_to_words_pl`:
`Decimal.__mod__` keeps the sign of the dividend. -/
def _grosze (n : Int) (k : Nat) : Int := Int.tmod (_cents n k) 100

/-- The local `words` of `_number_to_words_pl`: `"zero złotych"` when
`zloty == 0`, otherwise the joined group parts.  The source's `while tmp > 0`
loop runs only for positive `zloty`, which `Int.toNat` captures (it sends
every non-positive `zloty` to `0`, whose decomposition is empty). -/
def _words (n : Int) (k : Nat) : String :=
  if _zloty n k = 0 then "zero złotych"
  else pyStrip (pyJoin " " (_partsAux 0 (_groups_of (_zloty n k).toNat) []))

/-- The local `grosze_part = f"{grosze:02d} {_declension(grosze, _GROSZ_FORMS)}"`. -/
def _grosze_part (n : Int) (k : Nat) : String :=
  format02 (_grosze n k) ++ " " ++ _declension (_grosze n k) _GROSZ_FORMS

/-- `_number_to_words_pl` from `app.py` lines 1762–1788, on the exact decimal
`n / 10 ^ k`.  Returns `f"{words}, {grosze_part}".strip()`. -/
def _number_to_words_pl (n : Int) (k : Nat) : String :=
  pyStrip (_words n k ++ ", " ++ _grosze_part n k)

/-! ### The later, shadowing definitions (`app.py` lines 2111–2131)

The module redefines the word tables and `_declension` a second time further
down the file.  Those later definitions shadow the earlier ones and are the
bindings in scope when `_number_to_words_pl` executes.  They are transcribed
here with primed names, together with the converter rebuilt on top of them,
so that the two versions can be compared. -/

/-- `_UNITS` as redefined at `app.py` lines 2111–2114. -/
def _UNITS' : List (List String) := [
  ["zero", "jeden", "dwa", "trzy", "cztery", "pięć", "sześć", "siedem", "osiem", "dziewięć"],
  ["", "jeden", "dwa", "trzy", "cztery", "pięć", "sześć", "siedem", "osiem", "dziewięć"]]

/-- `_TEENS` as redefined at `app.py` line 2115. -/
def _TEENS' : List String :=
  ["dziesięć", "jedenaście", "dwanaście", "trzynaście", "czternaście",
   "piętnaście", "szesnaście", "siedemnaście", "osiemnaście", "dziewiętnaście"]

/-- `_TENS` as redefined at `app.py` line 2116. -/
def _TENS' : List String :=
  ["", "", "dwadzieścia", "trzydzieści", "czterdzieści", "pięćdziesiąt",
   "sześćdziesiąt", "siedemdziesiąt", "osiemdziesiąt", "dziewięćdziesiąt"]

/-- `_HUNDREDS` as redefined at `app.py` line 2117. -/
def _HUNDREDS' : List String :=
  ["", "sto", "dwieście", "trzysta", "czterysta", "pięćset", "sześćset",
   "siedemset", "osiemset", "dziewięćset"]

/-- `_GROUPS` as redefined at `app.py` lines 2118–2123. -/
def _GROUPS' : List (String × String × String) := [
  ("złoty", "złote", "złotych"),
  ("tysiąc", "tysiące", "tysięcy"),
  ("milion", "miliony", "milionów"),
  ("miliard", "miliardy", "miliardów")]

/-- `_declension` as redefined at `app.py` lines 2126–2131. -/
def _declension' (number : Int) (forms : String × String × String) : String :=
  if number = 1 then forms.1
  else if 2 ≤ number % 10 ∧ number % 10 ≤ 4 ∧ ¬ (12 ≤ number % 100 ∧ number % 100 ≤ 14)
    then forms.2.1
  else forms.2.2

/-- `_group_to_words` with the shadowing tables in scope. -/
def _group_to_words' (group : Nat) (hide_one : Bool) : String :=
  if group = 0 then ""
  else
    let hundreds := group / 100
    let tens_units := group % 100
    let tens := tens_units / 10
    let units := tens_units % 10
    let words : List String :=
      (if hundreds ≠ 0 then [_HUNDREDS'.getD hundreds ""] else []) ++
      (if tens_units ≠ 0 then
        (if tens_units < 10 then
          (if tens_units = 1 ∧ hide_one = true ∧ hundreds = 0 then []
           else [(_UNITS'.getD 1 []).getD units ""])
         else if tens_units < 20 then [_TEENS'.getD (tens_units - 10) ""]
         else [_TENS'.getD tens ""] ++
              (if units ≠ 0 then [(_UNITS'.getD 1 []).getD units ""] else []))
       else [])
    pyStrip (pyJoin " " words)

/-- The magnitude-forms lookup with the shadowing `_GROUPS'`. -/
def _forms_for' (idx : Nat) : String × String × String :=
  if idx < _GROUPS'.length then _GROUPS'.getD idx ("", "", "")
  else _GROUPS'.getLastD ("", "", "")

/-- The group loop of `_number_to_words_pl` with the shadowing definitions. -/
def _partsAux' : Nat → List Nat → List String → List String
  | _, [], parts => parts
  | idx, g :: rest, parts =>
    if g = 0 then _partsAux' (idx + 1) rest parts
    else
      let hide_one := decide (idx > 0)
      let group_words := _group_to_words' g hide_one
      let part := pyStrip (group_words ++ " " ++ _declension' (g : Int) (_forms_for' idx))
      _partsAux' (idx + 1) rest (part :: parts)

/-- The `words` local with the shadowing definitions. -/
def _words' (n : Int) (k : Nat) : String :=
  if _zloty n k = 0 then "zero złotych"
  else pyStrip (pyJoin " " (_partsAux' 0 (_groups_of (_zloty n k).toNat) []))

/-- The `grosze_part` local with the shadowing `_declension'`
(`_GROSZ_FORMS` is defined only once, at `app.py` line 1734). -/
def _grosze_part' (n : Int) (k : Nat) : String :=
  format02 (_grosze n k) ++ " " ++ _declension' (_grosze n k) _GROSZ_FORMS

/-- `_number_to_words_pl` as it actually executes, i.e. with the shadowing
(line 2111–2131) tables and `_declension` in scope. -/
def _number_to_words_pl' (n : Int) (k : Nat) : String :=
  pyStrip (_words' n k ++ ", " ++ _grosze_part' n k)

/-! ### Spec-side definitions

These two definitions are transcribed from the specification's own wording
(spec §4.1 and §4.4), to be compared with the source-derived definitions
above. -/

/-- The declension rule exactly as §4.4 words it: `n == 1` gives the singular
form; `n % 10` in `[2,4]` and `n % 100` not in `[12,14]` gives the plural-few
form; anything else gives the plural-many form. -/
def declensionSpec (n : Nat) (forms : String × String × String) : String :=
  if n = 1 then forms.1
  else if (n % 10 = 2 ∨ n % 10 = 3 ∨ n % 10 = 4) ∧
          ¬ (n % 100 = 12 ∨ n % 100 = 13 ∨ n % 100 = 14) then forms.2.1
  else forms.2.2

/-- Round-half-up as the spec words it: the quotient `m / d` is rounded up
exactly when the remainder is at least half of the divisor (`0.005` rounds to
`0.01`, ties away from zero). -/
def round_half_up_spec (m d : Nat) : Nat :=
  if d ≤ 2 * (m % d) then m / d + 1 else m / d

/-! ### Helper lemmas -/

/-- The closed form `(2 m + d) / (2 d)` computes round-half-up. -/
lemma roundHalfUpNat_eq_spec (m d : Nat) (hd : 0 < d) :
    roundHalfUpNat m d = round_half_up_spec m d := by
  unfold roundHalfUpNat round_half_up_spec
  obtain ⟨q, r, hr, rfl⟩ : ∃ q r, r < d ∧ m = d * q + r :=
    ⟨m / d, m % d, Nat.mod_lt _ hd, by rw [Nat.div_add_mod]⟩
  have hmod : (d * q + r) % d = r := by
    rw [Nat.mul_add_mod, Nat.mod_eq_of_lt hr]
  have hdiv : (d * q + r) / d = q := by
    rw [Nat.mul_add_div hd, Nat.div_eq_of_lt hr, Nat.add_zero]
  have harr : 2 * (d * q + r) + d = (2 * r + d) + (2 * d) * q := by ring
  rw [hmod, hdiv, harr, Nat.add_mul_div_left _ _ (by omega : 0 < 2 * d)]
  by_cases hhalf : d ≤ 2 * r
  · rw [if_pos hhalf, Nat.div_eq_of_lt_le (by omega : 1 * (2 * d) ≤ 2 * r + d)
      (by omega : 2 * r + d < (1 + 1) * (2 * d))]
    omega
  · rw [if_neg hhalf, Nat.div_eq_of_lt (by omega : 2 * r + d < 2 * d)]
    omega

/-- Round-half-up is invariant under scaling numerator and divisor alike. -/
lemma round_half_up_spec_mul_right (m d c : Nat) (hc : 0 < c) :
    round_half_up_spec (m * c) (d * c) = round_half_up_spec m d := by
  unfold round_half_up_spec
  rw [Nat.mul_mod_mul_right, Nat.mul_div_mul_right _ _ hc]
  have hiff : (d * c ≤ 2 * (m % d * c)) ↔ (d ≤ 2 * (m % d)) := by
    rw [show 2 * (m % d * c) = 2 * (m % d) * c by ring]
    exact ⟨fun h => Nat.le_of_mul_le_mul_right h hc, fun h => Nat.mul_le_mul_right c h⟩
  exact if_congr hiff rfl rfl

/-- Quantising a non-negative exact decimal `m / 10 ^ k` to cents agrees with
the spec's round-half-up of `amount * 100`. -/
lemma quantizeHalfUp_eq_round_spec (m k : Nat) :
    quantizeHalfUp (m : Int) k = (round_half_up_spec (m * 100) (10 ^ k) : Nat) := by
  unfold quantizeHalfUp
  by_cases hk : k ≤ 2
  · rw [if_pos hk]
    have hpos : 0 < (10 : Nat) ^ k := pow_pos (by norm_num) k
    have hnum : m * 100 = 10 ^ k * (m * 10 ^ (2 - k)) := by
      rw [show (100 : Nat) = 10 ^ k * 10 ^ (2 - k) by
        rw [← pow_add, show k + (2 - k) = 2 from by omega]; norm_num]
      ring
    unfold round_half_up_spec
    rw [hnum, Nat.mul_mod_right, Nat.mul_div_cancel_left _ hpos,
      if_neg (by omega : ¬ 10 ^ k ≤ 2 * 0)]
    push_cast
    ring
  · rw [if_neg hk, if_pos (Int.natCast_nonneg m), Int.toNat_natCast]
    have hd : 0 < (10 : Nat) ^ (k - 2) := pow_pos (by norm_num) _
    rw [roundHalfUpNat_eq_spec _ _ hd]
    congr 1
    have hsplit : (10 : Nat) ^ k = 10 ^ (k - 2) * 100 := by
      rw [show (100 : Nat) = 10 ^ 2 by norm_num, ← pow_add]
      congr 1
      omega
    rw [hsplit, round_half_up_spec_mul_right _ _ _ (by norm_num)]

/-- `_number_to_words_pl` depends on its input only through the quantized
cents value. -/
lemma number_to_words_pl_congr {n n' : Int} {k k' : Nat}
    (h : quantizeHalfUp n k = quantizeHalfUp n' k') :
    _number_to_words_pl n k = _number_to_words_pl n' k' := by
  simp only [_number_to_words_pl, _words, _grosze_part, _zloty, _grosze, _cents, h]

/-- The primed (shadowing) 0–999 renderer agrees with the unprimed one: the
tables it reads unfold to the same lists. -/
lemma group_to_words_eq : _group_to_words' = _group_to_words := rfl

/-- The primed (shadowing) declension function agrees with the unprimed one. -/
lemma declension_eq : ∀ (n : Int) (f : String × String × String),
    _declension' n f = _declension n f := fun _ _ => rfl

/-- The primed magnitude-forms lookup agrees with the unprimed one. -/
lemma forms_for_eq : _forms_for' = _forms_for := rfl

/-- The primed group loop agrees with the unprimed one. -/
lemma partsAux_eq (gs : List Nat) : ∀ (idx : Nat) (parts : List String),
    _partsAux' idx gs parts = _partsAux idx gs parts := by
  induction gs with
  | nil => intro idx parts; rfl
  | cons g rest ih =>
    intro idx parts
    simp only [_partsAux, _partsAux', group_to_words_eq, declension_eq, forms_for_eq]
    by_cases hg : g = 0
    · rw [if_pos hg, if_pos hg, ih]
    · rw [if_neg hg, if_neg hg, ih]

/-! ### Claims -/

/-- **C1.**  The claim says `amountToWords(1000.00)` yields the whole-amount
phrase `"tysiąc złotych"`.  The code does suppress `"jeden"` before
`"tysiąc"`, but because the units group (magnitude index 0) of 1000 is zero
it is skipped entirely — together with its magnitude noun, which for index 0
is the currency noun.  The result is `"tysiąc, 00 groszy"`: no form of
`"złoty"` appears anywhere in the output, contradicting both the claimed
phrase and the spec's own output contract (§4.2: the whole-currency clause
ends with the correctly declined currency noun). -/
theorem c1_thousand_drops_currency_noun :
    _number_to_words_pl 100000 2 = "tysiąc, 00 groszy"
    ∧ ¬ List.IsInfix "złot".toList (_number_to_words_pl 100000 2).toList :=
  ⟨by decide, by decide⟩

/-- **C2** (counterexample).  The claim says `amountToWords(-5.00)` fails
fast and never returns a phrase.  The code has no negativity check: for
−5.00 the quantized value is −500 cents, `zloty = -5` is non-zero, the
`while tmp > 0` loop never runs, and the function returns the phrase
`", 00 groszy"` — it does not fail. -/
theorem c2_negative_amount_returns_phrase :
    _number_to_words_pl (-500) 2 = ", 00 groszy" := by decide

/-- **C2** (amended).  `amountToWords(-5.00)` raises no error and returns the
phrase `", 00 groszy"` (empty whole-amount part); the returned phrase
contains no sign word (`"minus"` does not occur in it). -/
theorem c2_negative_amount_no_sign_word :
    _number_to_words_pl (-500) 2 = ", 00 groszy"
    ∧ ¬ List.IsInfix "minus".toList (_number_to_words_pl (-500) 2).toList :=
  ⟨by decide, by decide⟩

/-- **C3** (counterexample).  The claim says whole-unit amounts ≥ 1 trillion
fail fast with an "unsupported magnitude" error.  The code instead reuses
`_GROUPS[-1]` for any magnitude index beyond 3: 1 000 000 000 000.00 (the
5th group, index 4, holds 1) silently yields the incorrect phrase
`"miliard, 00 groszy"`. -/
theorem c3_trillion_returns_phrase :
    _number_to_words_pl ((10 ^ 14 : Nat) : Int) 2 = "miliard, 00 groszy" := by decide

/-- **C3** (amended).  For whole-unit amounts ≥ 1 trillion the converter does
not fail: every magnitude index ≥ 4 falls back to the `"miliard"` forms, so
10¹² złoty renders as `"miliard, 00 groszy"` and 2·10¹² złoty as
`"dwa miliardy, 00 groszy"` — silently incorrect phrases, not errors. -/
theorem c3_magnitude_index_falls_back_to_miliard :
    (∀ idx : Nat, 4 ≤ idx → _forms_for idx = ("miliard", "miliardy", "miliardów"))
    ∧ _number_to_words_pl ((2 * 10 ^ 14 : Nat) : Int) 2 = "dwa miliardy, 00 groszy" := by
  refine ⟨fun idx h => ?_, by decide⟩
  unfold _forms_for
  rw [if_neg (by rw [show _GROUPS.length = 4 from rfl]; omega)]
  rfl

theorem c3_magnitude_fallback_witness :
    _forms_for 4 = ("miliard", "miliardy", "miliardów") :=
  c3_magnitude_index_falls_back_to_miliard.1 4 (by decide)

/-- **C4.**  Quantisation uses round-half-up (ties away from zero): for every
non-negative exact decimal `m / 10 ^ k`, the subunit value equals
`round_half_up(amount * 100) mod 100`; in particular 10.005 rounds to 10.01,
so its subunit clause is `"01 grosz"`, not `"00 groszy"`. -/
theorem c4_subunits_are_round_half_up :
    (∀ m k : Nat, _grosze (m : Int) k =
        ((round_half_up_spec (m * 100) (10 ^ k) % 100 : Nat) : Int))
    ∧ _number_to_words_pl 10005 3 = "dziesięć złotych, 01 grosz"
    ∧ _grosze_part 10005 3 = "01 grosz" := by
  refine ⟨fun m k => ?_, by decide, by decide⟩
  unfold _grosze _cents
  rw [quantizeHalfUp_eq_round_spec]
  rfl

set_option maxRecDepth 1000000 in
/-- **C5.**  In the 0–999 renderer the `hide_one` flag changes the output
exactly when the group's tens-and-units portion (`g % 100`) is 1 and the
group has no hundreds digit (`g / 100 = 0`), i.e. exactly for group value 1,
where the suppressed rendering is `""` and the unsuppressed one `"jeden"`;
a group of 101 keeps `"jeden"` even with the flag set (`"sto jeden"`), and
the flag is set only for magnitude indices ≥ 1 (`hide_one = idx > 0` in
`_partsAux`), so `amountToWords(1.00) = "jeden złoty, 00 groszy"`. -/
theorem c5_jeden_suppression :
    (∀ g : Nat, g < 1000 →
        ((_group_to_words g true ≠ _group_to_words g false)
          ↔ (g % 100 = 1 ∧ g / 100 = 0)))
    ∧ _group_to_words 1 true = "" ∧ _group_to_words 1 false = "jeden"
    ∧ _group_to_words 101 true = "sto jeden"
    ∧ _number_to_words_pl 100 2 = "jeden złoty, 00 groszy" :=
  ⟨by decide, by decide, by decide, by decide, by decide⟩

theorem c5_jeden_suppression_witness :
    (_group_to_words 1 true ≠ _group_to_words 1 false) ↔ (1 % 100 = 1 ∧ 1 / 100 = 0) :=
  c5_jeden_suppression.1 1 (by decide)

/-- **C6.**  `amountToWords(1234567.89)`: the three non-zero groups render as
`""` (value 1, `"jeden"` suppressed, leaving just the magnitude noun
`"milion"`), `"dwieście trzydzieści cztery"` and
`"pięćset sześćdziesiąt siedem"`; joined in descending magnitude order with
single spaces — the units group carrying its magnitude noun, the currency
noun `"złotych"` — followed by `", 89 groszy"`. -/
theorem c6_multi_group_composition :
    _number_to_words_pl 123456789 2
      = "milion dwieście trzydzieści cztery tysiące pięćset sześćdziesiąt siedem złotych, 89 groszy"
    ∧ _group_to_words 1 true = ""
    ∧ _declension 1 ("milion", "miliony", "milionów") = "milion"
    ∧ _group_to_words 234 true = "dwieście trzydzieści cztery"
    ∧ _group_to_words 567 false = "pięćset sześćdziesiąt siedem"
    ∧ _grosze_part 123456789 2 = "89 groszy" :=
  ⟨by decide, by decide, by decide, by decide, by decide, by decide⟩

/-- **C7.**  For every non-negative integer `n` and 3-form tuple, the
declension selector agrees with the spec's rule (singular iff `n = 1`;
plural-few iff `n ≠ 1`, `n % 10 ∈ [2,4]` and `n % 100 ∉ [12,14]`; plural-many
otherwise); consequently the whole-amount phrase of 22.00 ends in `"złote"`
and that of 12.00 ends in `"złotych"`. -/
theorem c7_declension_rule :
    (∀ (n : Nat) (f : String × String × String),
        _declension (n : Int) f = declensionSpec n f)
    ∧ _words 2200 2 = "dwadzieścia dwa złote"
    ∧ _words 1200 2 = "dwanaście złotych"
    ∧ "złote".data.IsSuffix (_words 2200 2).data
    ∧ "złotych".data.IsSuffix (_words 1200 2).data := by
  refine ⟨fun n f => ?_, by decide, by decide, by decide, by decide⟩
  unfold _declension declensionSpec
  split_ifs <;> first | rfl | (exfalso; omega)

/-- **C8.**  Whenever the whole-unit part is zero the whole-amount phrase is
the literal `"zero"` followed by the plural-many currency noun, and
`amountToWords(0.00) = "zero złotych, 00 groszy"` exactly. -/
theorem c8_zero_amount :
    (∀ (n : Int) (k : Nat), _zloty n k = 0 → _words n k = "zero złotych")
    ∧ _number_to_words_pl 0 2 = "zero złotych, 00 groszy" := by
  refine ⟨fun n k h => ?_, by decide⟩
  unfold _words
  rw [if_pos h]

theorem c8_zero_amount_witness : _words 0 2 = "zero złotych" :=
  c8_zero_amount.1 0 2 (by decide)

/-- **C9.**  For every non-negative exact decimal `m / 10 ^ k`, converting
the amount directly and converting its half-up 2-digit quantisation yield the
same phrase: the function re-applies quantisation itself, and quantisation is
idempotent. -/
theorem c9_requantization_stable :
    ∀ m k : Nat, _number_to_words_pl (m : Int) k
      = _number_to_words_pl (quantizeHalfUp (m : Int) k) 2 := by
  intro m k
  exact number_to_words_pl_congr (by simp [quantizeHalfUp])

/-- **C10.**  The later (shadowing) definitions of the word tables and of
`_declension` — the ones in scope when `_number_to_words_pl` runs — are
element-wise equal to the earlier ones, and the converter built on either set
produces the same output on every input. -/
theorem c10_shadowed_definitions_agree :
    _UNITS' = _UNITS ∧ _TEENS' = _TEENS ∧ _TENS' = _TENS
    ∧ _HUNDREDS' = _HUNDREDS ∧ _GROUPS' = _GROUPS
    ∧ (∀ (n : Int) (f : String × String × String), _declension' n f = _declension n f)
    ∧ (∀ (n : Int) (k : Nat), _number_to_words_pl' n k = _number_to_words_pl n k) := by
  refine ⟨rfl, rfl, rfl, rfl, rfl, fun _ _ => rfl, fun n k => ?_⟩
  simp only [_number_to_words_pl, _number_to_words_pl', _words, _words',
    _grosze_part, _grosze_part', declension_eq, partsAux_eq]

end Navi
